import Mathlib

/-!
Verification of the Split Planner (`core_analyzer.py` / `batch_optimizer.py`)
and the Concurrent Batch Execution Engine (`performance_optimizer.py`).

Embedding conventions:
* Python floats are modelled by exact rationals (`ℚ`); the claims under
  study are algebraic/ordering facts that do not depend on IEEE rounding.
* Python ints are modelled by `ℤ` (or `ℕ` for counters).
* `math.ceil` on a float quotient is modelled by the exact ceiling `⌈·⌉`
  of the rational quotient; Python `int(x)` (truncation toward zero) is
  modelled by `pyInt`.
* Display-only strings that interpolate formatted numbers (the `reason`
  field of `SplitAnalysis`, the numeric parts of warning messages) are
  elided or kept as fixed message texts: no analysed claim reads them.
* Side-effecting code (upload cache, retry loops, the group collection
  loop) is modelled by explicit state passing; the remote service is an
  oracle (an outcome function / a fresh-handle counter).
-/

namespace CoreAnalyzer

/-- Python `int(x)`: truncation toward zero. -/
def pyInt (q : ℚ) : ℤ := if q < 0 then ⌈q⌉ else ⌊q⌋

/-- `FileMetrics` dataclass (`core_analyzer.py`, lines 25-36). -/
structure FileMetrics where
  size_mb : ℚ
  total_pages : ℤ
  density_mb_per_page : ℚ
deriving DecidableEq

/-- `SplitLimits` dataclass (`core_analyzer.py`, lines 39-56), with the
source defaults. -/
structure SplitLimits where
  max_size_mb : ℚ := 48
  max_pages : ℤ := 145
  safety_factor_size : ℚ := 97/100
  safety_factor_pages : ℚ := 97/100
  pdf_overhead_mb : ℚ := 1/2
deriving DecidableEq

/-- `SplitLimits.safe_max_size`: `max_size_mb * safety_factor_size`. -/
def SplitLimits.safe_max_size (L : SplitLimits) : ℚ :=
  L.max_size_mb * L.safety_factor_size

/-- `SplitLimits.safe_max_pages`: `int(max_pages * safety_factor_pages)`. -/
def SplitLimits.safe_max_pages (L : SplitLimits) : ℤ :=
  pyInt ((L.max_pages : ℚ) * L.safety_factor_pages)

/-- `SplitAnalysis` dataclass (`core_analyzer.py`, lines 59-78).  The
display-only `reason` string is elided. -/
structure SplitAnalysis where
  metrics : FileMetrics
  limits : SplitLimits
  requires_splitting : Bool
  min_files_by_size : ℤ := 1
  min_files_by_pages : ℤ := 1
  required_files : ℤ := 1
deriving DecidableEq

/-- `SplitPlan` dataclass (`core_analyzer.py`, lines 81-98). -/
structure SplitPlan where
  num_files : ℤ
  pages_per_file : ℤ
  estimated_mb_per_file : ℚ
  total_pages : ℤ
  total_size_mb : ℚ
  strategy : String
  efficiency_score : ℚ
  warnings : List String
deriving DecidableEq

/-- `FileAnalyzer.analyze_split_needs` (`core_analyzer.py`, lines 165-204).
The analyzer's `self.limits` is passed explicitly as `L`. -/
def analyze_split_needs (L : SplitLimits) (m : FileMetrics) : SplitAnalysis :=
  let requires_split : Bool :=
    if m.size_mb > L.max_size_mb then true
    else if m.total_pages > L.max_pages then true
    else false
  let min_files_by_size : ℤ := ⌈m.size_mb / L.safe_max_size⌉
  let min_files_by_pages : ℤ := ⌈(m.total_pages : ℚ) / (L.safe_max_pages : ℚ)⌉
  { metrics := m
    limits := L
    requires_splitting := requires_split
    min_files_by_size := min_files_by_size
    min_files_by_pages := min_files_by_pages
    required_files := max min_files_by_size min_files_by_pages }

/-- `FileAnalyzer._no_split_plan` (`core_analyzer.py`, lines 342-353). -/
def no_split_plan (a : SplitAnalysis) : SplitPlan :=
  { num_files := 1
    pages_per_file := a.metrics.total_pages
    estimated_mb_per_file := a.metrics.size_mb
    total_pages := a.metrics.total_pages
    total_size_mb := a.metrics.size_mb
    strategy := "no-split-required"
    efficiency_score := 1
    warnings := [] }

/-- `FileAnalyzer.calculate_split_plan` (`core_analyzer.py`, lines 206-272).
Warning texts keep the fixed message without the interpolated numbers. -/
def calculate_split_plan (L : SplitLimits) (a : SplitAnalysis)
    (num_files? : Option ℤ) : SplitPlan :=
  if ¬ a.requires_splitting then no_split_plan a else
  let num_files : ℤ := num_files?.getD a.required_files
  let pages_per_file : ℤ := ⌈(a.metrics.total_pages : ℚ) / (num_files : ℚ)⌉
  let mb_per_file : ℚ := a.metrics.size_mb / (num_files : ℚ) + L.pdf_overhead_mb
  let warnings : List String :=
    (if mb_per_file > L.safe_max_size
      then ["Archivos pueden exceder limite de tamano"] else []) ++
    (if pages_per_file > L.safe_max_pages
      then ["Archivos pueden exceder limite de paginas"] else [])
  -- the two sequential `if` statements: the page check overwrites the size one
  let strategy0 : String :=
    if pages_per_file > L.safe_max_pages then "page-constrained"
    else if mb_per_file > L.safe_max_size then "size-constrained"
    else "balanced"
  let size_efficiency : ℚ :=
    if mb_per_file > 0 then min 1 (L.safe_max_size / mb_per_file) else 0
  let page_efficiency : ℚ :=
    if (pages_per_file : ℚ) > 0
      then min 1 ((L.safe_max_pages : ℚ) / (pages_per_file : ℚ)) else 0
  let balance_score : ℚ := 1 - |size_efficiency - page_efficiency| * 0.5
  let file_penalty : ℚ := max 0 (((num_files : ℚ) - 5) * 0.05)
  let efficiency_score : ℚ :=
    (size_efficiency * 0.4 + page_efficiency * 0.4 + balance_score * 0.2)
      - file_penalty
  let strategy : String :=
    if a.metrics.density_mb_per_page > 1 then
      (if strategy0 = "balanced" then "high-density"
        else strategy0 ++ "-high-density")
    else if a.metrics.density_mb_per_page < 0.1 then
      (if strategy0 = "balanced" then "low-density"
        else strategy0 ++ "-low-density")
    else strategy0
  { num_files := num_files
    pages_per_file := pages_per_file
    estimated_mb_per_file := mb_per_file
    total_pages := a.metrics.total_pages
    total_size_mb := a.metrics.size_mb
    strategy := strategy
    efficiency_score := efficiency_score
    warnings := warnings }

/-- Loop body of `FileAnalyzer.get_optimal_split_plan`: the running pair
is `(best_plan, best_score)` and is replaced only on a strict
improvement (`plan.efficiency_score > best_score`). -/
def optimal_step (L : SplitLimits) (a : SplitAnalysis)
    (best : Option SplitPlan × ℚ) (n : ℤ) : Option SplitPlan × ℚ :=
  let plan := calculate_split_plan L a (some n)
  if plan.efficiency_score > best.2 then (some plan, plan.efficiency_score)
  else best

/-- `FileAnalyzer.get_optimal_split_plan` (`core_analyzer.py`, lines
274-297).  `best_plan` starts as `None` and `best_score` as `0`; the loop
ranges over `required_files, required_files+1, required_files+2`.  The
Python function can therefore return `None`, modelled by
`Option SplitPlan`. -/
def get_optimal_split_plan (L : SplitLimits) (a : SplitAnalysis) :
    Option SplitPlan :=
  if ¬ a.requires_splitting then some (no_split_plan a) else
  (List.foldl (optimal_step L a) (none, 0)
    [a.required_files, a.required_files + 1, a.required_files + 2]).1

/-- The default `SplitLimits()` configuration. -/
def default_limits : SplitLimits := {}

/-- C1: `analyze_split_needs` sets `requires_splitting` exactly when the
file exceeds the unscaled `max_size_mb` or the unscaled `max_pages`; the
safety-scaled `safe_max_size`/`safe_max_pages` play no role in the
trigger condition. -/
theorem requires_splitting_iff_unscaled_limits (L : SplitLimits)
    (m : FileMetrics) :
    (analyze_split_needs L m).requires_splitting = true ↔
      (m.size_mb > L.max_size_mb ∨ m.total_pages > L.max_pages) := by
  unfold analyze_split_needs
  by_cases h1 : m.size_mb > L.max_size_mb <;>
    by_cases h2 : m.total_pages > L.max_pages <;>
      simp [h1, h2]

/-- C4, specification side: the efficiency-score formula exactly as the
claim states it, `0.4·size_eff + 0.4·page_eff + 0.2·(1 − 0.5·|size_eff −
page_eff|) − max(0, (num_files−5)·0.05)` with `mb = size/num_files +
overhead`, `pages = ceil(total_pages/num_files)`, `size_eff = min(1,
safe_max_size/mb)`, `page_eff = min(1, safe_max_pages/pages)`. -/
def claimed_efficiency_score (L : SplitLimits) (size_mb : ℚ)
    (total_pages : ℤ) (num_files : ℤ) : ℚ :=
  let mb : ℚ := size_mb / (num_files : ℚ) + L.pdf_overhead_mb
  let pages : ℤ := ⌈(total_pages : ℚ) / (num_files : ℚ)⌉
  let size_eff : ℚ := min 1 (L.safe_max_size / mb)
  let page_eff : ℚ := min 1 ((L.safe_max_pages : ℚ) / (pages : ℚ))
  0.4 * size_eff + 0.4 * page_eff +
    0.2 * (1 - 0.5 * |size_eff - page_eff|) -
    max 0 (((num_files : ℚ) - 5) * 0.05)

/-- Shared helper: under the same guards the source computes exactly the
claimed formula. -/
theorem efficiency_score_eq_claimed (L : SplitLimits) (a : SplitAnalysis)
    (n : ℤ) (hreq : a.requires_splitting = true)
    (hmb : 0 < a.metrics.size_mb / (n : ℚ) + L.pdf_overhead_mb)
    (hppfQ : (0 : ℚ) < ((⌈(a.metrics.total_pages : ℚ) / (n : ℚ)⌉ : ℤ) : ℚ)) :
    (calculate_split_plan L a (some n)).efficiency_score =
      claimed_efficiency_score L a.metrics.size_mb a.metrics.total_pages n := by
  unfold calculate_split_plan claimed_efficiency_score
  simp only [hreq, not_true_eq_false, if_false, Option.getD_some]
  rw [if_pos hmb, if_pos hppfQ]
  ring

/-- Shared helper: a weighted score `0.4·s + 0.4·p + 0.2·(1 − 0.5·|s−p|)`
with `s, p ≤ 1` minus a penalty of at least `1.05` is negative. -/
theorem weighted_score_neg (s p pen : ℚ) (hs : s ≤ 1) (hp : p ≤ 1)
    (hpen : (21 : ℚ) * 0.05 ≤ pen) :
    0.4 * s + 0.4 * p + 0.2 * (1 - 0.5 * |s - p|) - max 0 pen < 0 := by
  have habs : 0 ≤ |s - p| := abs_nonneg _
  have hmax : pen ≤ max 0 pen := le_max_right _ _
  linarith

/-- Shared helper: the claimed formula is negative for `num_files ≥ 26`. -/
theorem claimed_efficiency_score_neg (L : SplitLimits) (size_mb : ℚ)
    (total_pages : ℤ) (n : ℤ) (h26 : 26 ≤ n) :
    claimed_efficiency_score L size_mb total_pages n < 0 := by
  have h26Q : (26 : ℚ) ≤ (n : ℚ) := by exact_mod_cast h26
  unfold claimed_efficiency_score
  dsimp only
  exact weighted_score_neg _ _ _ (min_le_left _ _) (min_le_left _ _)
    (by linarith)

/-- C2 (amended), specification side: `optimalPlan` evaluates exactly the
candidates `required_files, required_files+1, required_files+2`; it
returns the earliest candidate whose score is strictly positive and not
strictly beaten by a later candidate (ties go to the earliest, because
the incumbent is replaced only on a strict improvement); when no
candidate scores above the initial `best_score = 0`, it returns no plan
at all (`None`). -/
def optimal_plan_spec (L : SplitLimits) (a : SplitAnalysis) :
    Option SplitPlan :=
  let p1 := calculate_split_plan L a (some a.required_files)
  let p2 := calculate_split_plan L a (some (a.required_files + 1))
  let p3 := calculate_split_plan L a (some (a.required_files + 2))
  if p3.efficiency_score > max 0 (max p1.efficiency_score p2.efficiency_score)
    then some p3
  else if p2.efficiency_score > max 0 p1.efficiency_score then some p2
  else if p1.efficiency_score > 0 then some p1
  else none

/-- C2 (amended): when splitting is required, the optimal-plan search
agrees with `optimal_plan_spec`: it evaluates exactly the three
candidates, keeps the earliest strict maximiser when some candidate
scores above 0, and otherwise returns `None` (refuted original behaviour
shown in `C2_counterexample`). -/
theorem optimal_plan_strict_improvement_search (L : SplitLimits)
    (a : SplitAnalysis) (hreq : a.requires_splitting = true) :
    get_optimal_split_plan L a = optimal_plan_spec L a := by
  unfold get_optimal_split_plan optimal_plan_spec
  simp only [hreq, not_true_eq_false, if_false, List.foldl_cons,
    List.foldl_nil, optimal_step, gt_iff_lt, max_lt_iff]
  by_cases h1 : (0 : ℚ) <
      (calculate_split_plan L a (some a.required_files)).efficiency_score
  · rw [if_pos h1]
    dsimp only
    by_cases h2 : (calculate_split_plan L a (some a.required_files)).efficiency_score <
        (calculate_split_plan L a (some (a.required_files + 1))).efficiency_score
    · rw [if_pos h2]
      dsimp only
      by_cases h3 : (calculate_split_plan L a (some (a.required_files + 1))).efficiency_score <
          (calculate_split_plan L a (some (a.required_files + 2))).efficiency_score
      · rw [if_pos h3, if_pos ⟨by linarith, by linarith, h3⟩]
      · rw [if_neg h3,
          if_neg (fun h => h3 (by linarith [h.2.2])),
          if_pos ⟨by linarith, h2⟩]
    · rw [if_neg h2]
      dsimp only
      by_cases h3 : (calculate_split_plan L a (some a.required_files)).efficiency_score <
          (calculate_split_plan L a (some (a.required_files + 2))).efficiency_score
      · rw [if_pos h3, if_pos ⟨by linarith, h3, by linarith⟩]
      · rw [if_neg h3,
          if_neg (fun h => h3 h.2.1),
          if_neg (fun h => h2 (by linarith [h.2])),
          if_pos h1]
  · rw [if_neg h1]
    dsimp only
    by_cases h2 : (0 : ℚ) <
        (calculate_split_plan L a (some (a.required_files + 1))).efficiency_score
    · rw [if_pos h2]
      dsimp only
      by_cases h3 : (calculate_split_plan L a (some (a.required_files + 1))).efficiency_score <
          (calculate_split_plan L a (some (a.required_files + 2))).efficiency_score
      · rw [if_pos h3, if_pos ⟨by linarith, by linarith, h3⟩]
      · rw [if_neg h3,
          if_neg (fun h => h3 (by linarith [h.2.2])),
          if_pos ⟨h2, by linarith⟩]
    · rw [if_neg h2]
      dsimp only
      by_cases h3 : (0 : ℚ) <
          (calculate_split_plan L a (some (a.required_files + 2))).efficiency_score
      · rw [if_pos h3, if_pos ⟨h3, by linarith, by linarith⟩]
      · rw [if_neg h3,
          if_neg (fun h => h3 h.1),
          if_neg (fun h => h2 h.1),
          if_neg h1]

/-- Concrete metrics refuting C2 as stated: a 10000 MB, 40000-page file
whose `required_files` is 286, so all three candidate scores are negative
(the fragmentation penalty exceeds 14) and the search, whose incumbent
score starts at 0, never adopts any candidate. -/
def c2_metrics : FileMetrics :=
  { size_mb := 10000, total_pages := 40000, density_mb_per_page := 1/4 }

/-- The analysis of `c2_metrics` under the default limits. -/
def c2_analysis : SplitAnalysis := analyze_split_needs default_limits c2_metrics

/-- C2 counterexample: splitting is required, yet `get_optimal_split_plan`
returns no plan at all (`None`) instead of the highest-scoring candidate,
because every candidate score is below the initial incumbent score 0. -/
theorem C2_counterexample :
    c2_analysis.requires_splitting = true ∧
    get_optimal_split_plan default_limits c2_analysis = none := by
  have hreq : c2_analysis.requires_splitting = true := by
    norm_num [c2_analysis, c2_metrics, analyze_split_needs, default_limits]
  have hrf : c2_analysis.required_files = 286 := by
    norm_num [c2_analysis, c2_metrics, analyze_split_needs, default_limits,
      SplitLimits.safe_max_size, SplitLimits.safe_max_pages, pyInt]
    have hc1 : ⌈(62500 : ℚ) / 291⌉ = (215 : ℤ) := by norm_num [Int.ceil_eq_iff]
    have hc2 : ⌈(2000 : ℚ) / 7⌉ = (286 : ℤ) := by norm_num [Int.ceil_eq_iff]
    rw [hc1, hc2]
    omega
  have hneg : ∀ n : ℤ, 26 ≤ n →
      (calculate_split_plan default_limits c2_analysis
        (some n)).efficiency_score < 0 := by
    intro n h26
    have hnQ : (0 : ℚ) < (n : ℚ) := by
      exact_mod_cast lt_of_lt_of_le (by norm_num) h26
    have hmb : 0 < c2_analysis.metrics.size_mb / (n : ℚ) +
        default_limits.pdf_overhead_mb := by
      have : (0 : ℚ) ≤ c2_analysis.metrics.size_mb / (n : ℚ) := by
        apply div_nonneg _ (le_of_lt hnQ)
        norm_num [c2_analysis, c2_metrics, analyze_split_needs]
      have h2 : (0 : ℚ) < default_limits.pdf_overhead_mb := by
        norm_num [default_limits]
      linarith
    have hppf : 0 < ⌈(c2_analysis.metrics.total_pages : ℚ) / (n : ℚ)⌉ := by
      apply Int.ceil_pos.mpr
      apply div_pos _ hnQ
      norm_num [c2_analysis, c2_metrics, analyze_split_needs]
    have hppfQ : (0 : ℚ) <
        ((⌈(c2_analysis.metrics.total_pages : ℚ) / (n : ℚ)⌉ : ℤ) : ℚ) := by
      exact_mod_cast hppf
    rw [efficiency_score_eq_claimed default_limits c2_analysis n hreq hmb hppfQ]
    exact claimed_efficiency_score_neg _ _ _ n h26
  refine ⟨hreq, ?_⟩
  unfold get_optimal_split_plan
  rw [hrf]
  simp only [hreq, not_true_eq_false, if_false, List.foldl_cons,
    List.foldl_nil, optimal_step, gt_iff_lt]
  rw [if_neg (not_lt.mpr (le_of_lt (hneg 286 (by norm_num))))]
  dsimp only
  rw [if_neg (not_lt.mpr (le_of_lt (hneg (286 + 1) (by norm_num))))]
  dsimp only
  rw [if_neg (not_lt.mpr (le_of_lt (hneg (286 + 2) (by norm_num))))]

/-- Concrete metrics for the C2 witness: 100 MB, 400 pages. -/
def c2_witness_metrics : FileMetrics :=
  { size_mb := 100, total_pages := 400, density_mb_per_page := 1/4 }

/-- The analysis of `c2_witness_metrics` under the default limits. -/
def c2_witness_analysis : SplitAnalysis :=
  analyze_split_needs default_limits c2_witness_metrics

/-- Witness for `optimal_plan_strict_improvement_search` at a concrete
input. -/
theorem optimal_plan_strict_improvement_search_witness :
    c2_witness_analysis.requires_splitting = true ∧
    get_optimal_split_plan default_limits c2_witness_analysis =
      optimal_plan_spec default_limits c2_witness_analysis :=
  ⟨by norm_num [c2_witness_analysis, c2_witness_metrics, analyze_split_needs,
      default_limits],
    optimal_plan_strict_improvement_search default_limits c2_witness_analysis
      (by norm_num [c2_witness_analysis, c2_witness_metrics,
        analyze_split_needs, default_limits])⟩

/-- Field values of `calculate_split_plan` when splitting is required. -/
theorem calculate_split_plan_fields (L : SplitLimits) (a : SplitAnalysis)
    (n : ℤ) (hreq : a.requires_splitting = true) :
    (calculate_split_plan L a (some n)).num_files = n ∧
    (calculate_split_plan L a (some n)).pages_per_file =
      ⌈(a.metrics.total_pages : ℚ) / (n : ℚ)⌉ ∧
    (calculate_split_plan L a (some n)).total_pages = a.metrics.total_pages := by
  unfold calculate_split_plan
  simp [hreq]

/-- C3 (amended), specification side: the ceiling page distribution covers
all pages, and the per-file page count is tight (one page fewer per file
would not cover all pages). -/
def ceiling_distribution_tight (p : SplitPlan) : Prop :=
  p.total_pages ≤ p.pages_per_file * p.num_files ∧
  (p.pages_per_file - 1) * p.num_files < p.total_pages

/-- C3 (amended): for every plan produced by `calculate_split_plan` with
`total_pages > 0` and `num_files ≥ 1`, the distribution covers all pages
(`pages_per_file × num_files ≥ total_pages`) and the ceiling is tight in
`pages_per_file` (`(pages_per_file − 1) × num_files < total_pages`).  The
originally claimed inequality `pages_per_file × (num_files − 1) <
total_pages` is refuted by `C3_counterexample`. -/
theorem split_plan_ceiling_distribution (L : SplitLimits) (a : SplitAnalysis)
    (n : ℤ) (hreq : a.requires_splitting = true)
    (_hpages : 0 < a.metrics.total_pages) (hn : 1 ≤ n) :
    ceiling_distribution_tight (calculate_split_plan L a (some n)) := by
  obtain ⟨hnum, hppf, htot⟩ := calculate_split_plan_fields L a n hreq
  have hnQ : (0 : ℚ) < (n : ℚ) := by exact_mod_cast lt_of_lt_of_le one_pos hn
  constructor
  · rw [hnum, hppf, htot]
    have h1 : (a.metrics.total_pages : ℚ) / (n : ℚ) ≤
        (⌈(a.metrics.total_pages : ℚ) / (n : ℚ)⌉ : ℚ) := Int.le_ceil _
    have h2 : (a.metrics.total_pages : ℚ) ≤
        (⌈(a.metrics.total_pages : ℚ) / (n : ℚ)⌉ : ℚ) * (n : ℚ) :=
      (div_le_iff₀ hnQ).mp h1
    exact_mod_cast h2
  · rw [hnum, hppf, htot]
    have h1 : (⌈(a.metrics.total_pages : ℚ) / (n : ℚ)⌉ : ℚ) <
        (a.metrics.total_pages : ℚ) / (n : ℚ) + 1 := Int.ceil_lt_add_one _
    have h2 : ((⌈(a.metrics.total_pages : ℚ) / (n : ℚ)⌉ : ℚ) - 1) * (n : ℚ) <
        (a.metrics.total_pages : ℚ) := by
      rw [sub_mul, one_mul]
      have h3 : (⌈(a.metrics.total_pages : ℚ) / (n : ℚ)⌉ : ℚ) * (n : ℚ) <
          ((a.metrics.total_pages : ℚ) / (n : ℚ) + 1) * (n : ℚ) :=
        mul_lt_mul_of_pos_right h1 hnQ
      rw [add_mul, div_mul_cancel₀ _ (ne_of_gt hnQ), one_mul] at h3
      linarith
    exact_mod_cast h2

/-- Concrete metrics refuting the second inequality of C3: a 100 MB,
4-page file (splitting required by size). -/
def c3_metrics : FileMetrics :=
  { size_mb := 100, total_pages := 4, density_mb_per_page := 25 }

/-- The analysis of `c3_metrics` under the default limits; its
`required_files` is 3, so `num_files = 3` lies in the optimizer's own
candidate range. -/
def c3_analysis : SplitAnalysis := analyze_split_needs default_limits c3_metrics

/-- C3 counterexample: for the 100 MB, 4-page file split into 3 files,
`pages_per_file = 2` and `2 × (3 − 1) = 4 ≥ 4 = total_pages`, refuting
the claimed inequality `pages_per_file × (num_files − 1) < total_pages`. -/
theorem C3_counterexample :
    c3_analysis.requires_splitting = true ∧
    c3_analysis.required_files = 3 ∧
    (calculate_split_plan default_limits c3_analysis (some 3)).pages_per_file = 2 ∧
    (calculate_split_plan default_limits c3_analysis (some 3)).num_files = 3 ∧
    (calculate_split_plan default_limits c3_analysis (some 3)).total_pages = 4 ∧
    ¬ ((calculate_split_plan default_limits c3_analysis (some 3)).pages_per_file *
        ((calculate_split_plan default_limits c3_analysis (some 3)).num_files - 1) <
        (calculate_split_plan default_limits c3_analysis (some 3)).total_pages) := by
  norm_num [c3_analysis, c3_metrics, analyze_split_needs, default_limits,
    calculate_split_plan, no_split_plan, SplitLimits.safe_max_size,
    SplitLimits.safe_max_pages, pyInt]
  have hc1 : ⌈(625 : ℚ) / 291⌉ = (3 : ℤ) := by norm_num [Int.ceil_eq_iff]
  have hc2 : ⌈(1 : ℚ) / 35⌉ = (1 : ℤ) := by norm_num [Int.ceil_eq_iff]
  have hc3 : ⌈(4 : ℚ) / 3⌉ = (2 : ℤ) := by norm_num [Int.ceil_eq_iff]
  rw [hc1, hc2, hc3]
  omega

/-- Concrete metrics for the C3 witness: 100 MB, 400 pages. -/
def c3_witness_metrics : FileMetrics :=
  { size_mb := 100, total_pages := 400, density_mb_per_page := 1/4 }

/-- The analysis of `c3_witness_metrics` under the default limits. -/
def c3_witness_analysis : SplitAnalysis :=
  analyze_split_needs default_limits c3_witness_metrics

/-- Witness for `split_plan_ceiling_distribution` at a concrete input. -/
theorem split_plan_ceiling_distribution_witness :
    c3_witness_analysis.requires_splitting = true ∧
    (0 : ℤ) < c3_witness_analysis.metrics.total_pages ∧
    (1 : ℤ) ≤ 4 ∧
    ceiling_distribution_tight
      (calculate_split_plan default_limits c3_witness_analysis (some 4)) :=
  ⟨by norm_num [c3_witness_analysis, c3_witness_metrics, analyze_split_needs,
      default_limits],
    by norm_num [c3_witness_analysis, c3_witness_metrics, analyze_split_needs],
    by norm_num,
    split_plan_ceiling_distribution default_limits c3_witness_analysis 4
      (by norm_num [c3_witness_analysis, c3_witness_metrics, analyze_split_needs,
        default_limits])
      (by norm_num [c3_witness_analysis, c3_witness_metrics, analyze_split_needs])
      (by norm_num)⟩

/-- C4: the efficiency score of a plan equals the claimed formula, and it
is not clamped: for every `num_files ≥ 26` the score is negative. -/
theorem efficiency_score_formula_and_unclamped (L : SplitLimits)
    (a : SplitAnalysis) (n : ℤ) (hreq : a.requires_splitting = true)
    (hn : 1 ≤ n) (hpages : 0 < a.metrics.total_pages)
    (hmb : 0 < a.metrics.size_mb / (n : ℚ) + L.pdf_overhead_mb) :
    (calculate_split_plan L a (some n)).efficiency_score =
      claimed_efficiency_score L a.metrics.size_mb a.metrics.total_pages n ∧
    (26 ≤ n →
      (calculate_split_plan L a (some n)).efficiency_score < 0) := by
  have hnQ : (0 : ℚ) < (n : ℚ) := by exact_mod_cast lt_of_lt_of_le one_pos hn
  have hppf : 0 < ⌈(a.metrics.total_pages : ℚ) / (n : ℚ)⌉ :=
    Int.ceil_pos.mpr (div_pos (by exact_mod_cast hpages) hnQ)
  have hppfQ : (0 : ℚ) < ((⌈(a.metrics.total_pages : ℚ) / (n : ℚ)⌉ : ℤ) : ℚ) := by
    exact_mod_cast hppf
  have heq := efficiency_score_eq_claimed L a n hreq hmb hppfQ
  refine ⟨heq, fun h26 => ?_⟩
  rw [heq]
  exact claimed_efficiency_score_neg L a.metrics.size_mb a.metrics.total_pages
    n h26

/-- Concrete metrics for the C4 witness: 100 MB, 400 pages. -/
def c4_metrics : FileMetrics :=
  { size_mb := 100, total_pages := 400, density_mb_per_page := 1/4 }

/-- The analysis of `c4_metrics` under the default limits. -/
def c4_analysis : SplitAnalysis := analyze_split_needs default_limits c4_metrics

/-- Witness for `efficiency_score_formula_and_unclamped`: the 100 MB,
400-page file split into 26 files. -/
theorem efficiency_score_formula_witness :
    c4_analysis.requires_splitting = true ∧
    (1 : ℤ) ≤ 26 ∧
    (0 : ℤ) < c4_analysis.metrics.total_pages ∧
    (0 : ℚ) < c4_analysis.metrics.size_mb / ((26 : ℤ) : ℚ) +
        default_limits.pdf_overhead_mb ∧
    ((calculate_split_plan default_limits c4_analysis (some 26)).efficiency_score =
      claimed_efficiency_score default_limits c4_analysis.metrics.size_mb
        c4_analysis.metrics.total_pages 26 ∧
    (26 ≤ (26 : ℤ) →
      (calculate_split_plan default_limits c4_analysis
        (some 26)).efficiency_score < 0)) :=
  ⟨by norm_num [c4_analysis, c4_metrics, analyze_split_needs, default_limits],
    by norm_num,
    by norm_num [c4_analysis, c4_metrics, analyze_split_needs],
    by norm_num [c4_analysis, c4_metrics, analyze_split_needs, default_limits],
    efficiency_score_formula_and_unclamped default_limits c4_analysis 26
      (by norm_num [c4_analysis, c4_metrics, analyze_split_needs, default_limits])
      (by norm_num)
      (by norm_num [c4_analysis, c4_metrics, analyze_split_needs])
      (by norm_num [c4_analysis, c4_metrics, analyze_split_needs, default_limits])⟩

end CoreAnalyzer

namespace PerformanceOptimizer

/-- Python `s.startswith(t)` on character lists (helper for `occursIn`). -/
def charsStartWith : List Char → List Char → Bool
  | [], _ => true
  | _ :: _, [] => false
  | a :: as, b :: bs => a == b && charsStartWith as bs

/-- Python substring containment `needle in hay` on character lists. -/
def occursIn (needle : List Char) : List Char → Bool
  | [] => needle.isEmpty
  | c :: rest => charsStartWith needle (c :: rest) || occursIn needle rest

/-- `BatchProcessor._is_rate_limit_error` (`performance_optimizer.py`,
lines 443-450): any of the indicators occurs in the lowercased error
text. -/
def is_rate_limit_error (err : String) : Bool :=
  let e := err.data.map Char.toLower
  ["429", "rate limit", "too many requests", "quota exceeded", "throttled",
    "rate exceeded"].any (fun ind => occursIn ind.data e)

/-- `BatchProcessor._is_url_fetch_error` (`performance_optimizer.py`,
lines 452-459): detects the transient-fetch signature (error code 3310 /
file-could-not-be-fetched). -/
def is_url_fetch_error (err : String) : Bool :=
  let e := err.data.map Char.toLower
  ["3310", "could not be fetched from url", "file could not be fetched",
    "invalid_request_file"].any (fun ind => occursIn ind.data e)

/-- The success-path update of the adaptive delay
(`performance_optimizer.py`, line 186):
`adaptive_delay = max(0.5, adaptive_delay * 0.9)`. -/
def on_success_update (d : ℚ) : ℚ := max 0.5 (d * 0.9)

/-- C10: from any starting delay, after any positive number of
`onSuccess` updates the adaptive delay is at least 0.5 seconds. -/
theorem adaptive_delay_floor (d : ℚ) (n : ℕ) :
    (0.5 : ℚ) ≤ on_success_update^[n + 1] d := by
  rw [Function.iterate_succ_apply']
  exact le_max_left _ _

/-- Attempt loop of `BatchProcessor._process_single_file_with_metrics`
(`performance_optimizer.py`, lines 227-296).  The body of one attempt
(cached upload, remote OCR call, saving) is abstracted as the oracle
`outcome : attempt number → result`; `fuel` is the number of retries
still allowed (`max_retries - attempt`).  On an error matching the
transient-fetch signature with retries remaining, the loop sleeps
`3 * (attempt + 1)` seconds (recorded in the returned list) and retries;
any other error, or an error after the retries are exhausted, is
re-raised. -/
def run_attempts (outcome : ℕ → Except String ℕ) :
    ℕ → ℕ → Except String ℕ × List ℚ
  | attempt, fuel =>
    match outcome attempt with
    | Except.ok v => (Except.ok v, [])
    | Except.error e =>
      match fuel with
      | 0 => (Except.error e, [])
      | fuel' + 1 =>
        if is_url_fetch_error e then
          let rest := run_attempts outcome (attempt + 1) fuel'
          (rest.1, (3 * ((attempt : ℚ) + 1)) :: rest.2)
        else (Except.error e, [])

/-- `_process_single_file_with_metrics` starts at attempt 0 with
`max_retries = 2`. -/
def process_single_file (outcome : ℕ → Except String ℕ) :
    Except String ℕ × List ℚ :=
  run_attempts outcome 0 2

/-- The retry loop records at most `fuel` retry delays. -/
theorem run_attempts_length_le (g : ℕ → Except String ℕ) :
    ∀ (fuel attempt : ℕ), (run_attempts g attempt fuel).2.length ≤ fuel := by
  intro fuel
  induction fuel with
  | zero =>
    intro attempt
    rw [run_attempts]
    cases g attempt <;> simp
  | succ fuel' ih =>
    intro attempt
    rw [run_attempts]
    cases g attempt with
    | ok v => simp
    | error e =>
      by_cases hf : is_url_fetch_error e = true
      · simp only [hf, if_true]
        simpa using ih (attempt + 1)
      · simp [hf]

/-- C9: a job whose first two attempts fail with the transient-fetch
signature and whose third attempt succeeds yields a success with exactly
the retry delays 3 s and 6 s; moreover the loop never performs more than
2 retries. -/
theorem transient_fetch_retry (outcome : ℕ → Except String ℕ)
    (e0 e1 : String) (v : ℕ)
    (h0 : outcome 0 = Except.error e0) (hf0 : is_url_fetch_error e0 = true)
    (h1 : outcome 1 = Except.error e1) (hf1 : is_url_fetch_error e1 = true)
    (h2 : outcome 2 = Except.ok v) :
    process_single_file outcome = (Except.ok v, [3, 6]) ∧
    ∀ g : ℕ → Except String ℕ, (process_single_file g).2.length ≤ 2 := by
  constructor
  · unfold process_single_file
    rw [run_attempts, h0]
    simp only [hf0, if_true]
    rw [run_attempts, h1]
    simp only [hf1, if_true]
    rw [run_attempts, h2]
    norm_num
  · intro g
    exact run_attempts_length_le g 2 0

/-- Concrete attempt outcomes for the C9 witness: two transient-fetch
failures, then success. -/
def c9_outcome : ℕ → Except String ℕ
  | 0 => Except.error "Error 3310: file could not be fetched from url"
  | 1 => Except.error "Error 3310: file could not be fetched from url"
  | _ => Except.ok 7

/-- Witness for `transient_fetch_retry` at a concrete input. -/
theorem transient_fetch_retry_witness :
    c9_outcome 0 = Except.error "Error 3310: file could not be fetched from url" ∧
    is_url_fetch_error "Error 3310: file could not be fetched from url" = true ∧
    c9_outcome 1 = Except.error "Error 3310: file could not be fetched from url" ∧
    c9_outcome 2 = Except.ok 7 ∧
    (process_single_file c9_outcome = (Except.ok 7, [3, 6]) ∧
      ∀ g : ℕ → Except String ℕ, (process_single_file g).2.length ≤ 2) :=
  ⟨rfl, by decide, rfl, rfl,
    transient_fetch_retry c9_outcome _ _ 7 rfl (by decide) rfl (by decide) rfl⟩

/-- One entry of `self.upload_cache` (`performance_optimizer.py`, lines
341-347): signed URL handle, insertion timestamp and metadata.  Handles
are modelled as the serial number of the upload that produced them. -/
structure CacheEntry where
  url : ℕ
  timestamp : ℚ
  filename : String
  size_mb : ℚ
deriving DecidableEq

/-- The mutable state touched by `_upload_file_cached`: the hash-keyed
cache dict (assoc list with unique keys) and the number of network
uploads performed so far (the serial number of the next fresh handle). -/
structure UploadState where
  cache : List (String × CacheEntry)
  uploads : ℕ
deriving DecidableEq

/-- `BatchProcessor._cleanup_expired_cache` (`performance_optimizer.py`,
lines 353-365): remove every entry with `now - timestamp > 43200`
(12 hours). -/
def cleanup_expired_cache (cache : List (String × CacheEntry)) (now : ℚ) :
    List (String × CacheEntry) :=
  cache.filter (fun p => !decide (now - p.2.timestamp > 43200))

/-- Dict lookup `cache[key]` / `key in cache`. -/
def lookup_cache (cache : List (String × CacheEntry)) (key : String) :
    Option CacheEntry :=
  (cache.find? (fun p => p.1 == key)).map (fun p => p.2)

/-- Dict deletion `del cache[key]` (keys are unique in a dict). -/
def erase_key (cache : List (String × CacheEntry)) (key : String) :
    List (String × CacheEntry) :=
  cache.filter (fun p => p.1 != key)

/-- Dict assignment `cache[key] = entry`. -/
def insert_entry (cache : List (String × CacheEntry)) (key : String)
    (e : CacheEntry) : List (String × CacheEntry) :=
  (key, e) :: erase_key cache key

/-- `BatchProcessor._upload_file_cached` (`performance_optimizer.py`,
lines 298-351).  `fileHash` is the MD5 hexdigest of the file bytes (MD5
is deterministic, so unchanged bytes give the same key); the actual
upload and signed-URL acquisition are the abstract network effect,
modelled by handing out `s.uploads` as the fresh handle and incrementing
the counter.  Control flow mirrors the source: lazy TTL sweep first,
then (unless `forceFresh`) a cache hit is returned if younger than 43200
seconds, an expired hit is deleted, and a miss/forced call uploads and
stores a fresh entry timestamped `now`. -/
def upload_file_cached (fileHash fileName : String) (sizeMb now : ℚ)
    (forceFresh : Bool) (s : UploadState) : ℕ × UploadState :=
  let c1 := cleanup_expired_cache s.cache now
  match (if forceFresh then none else lookup_cache c1 fileHash) with
  | some entry =>
      if now - entry.timestamp < 43200 then
        (entry.url, { cache := c1, uploads := s.uploads })
      else
        let c2 := erase_key c1 fileHash
        (s.uploads,
          { cache := insert_entry c2 fileHash
              { url := s.uploads, timestamp := now, filename := fileName,
                size_mb := sizeMb },
            uploads := s.uploads + 1 })
  | none =>
      (s.uploads,
        { cache := insert_entry c1 fileHash
            { url := s.uploads, timestamp := now, filename := fileName,
              size_mb := sizeMb },
          uploads := s.uploads + 1 })

/-- Inserting under a key makes lookup under that key return the new
entry. -/
theorem lookup_insert_entry (cache : List (String × CacheEntry))
    (key : String) (e : CacheEntry) :
    lookup_cache (insert_entry cache key e) key = some e := by
  simp [lookup_cache, insert_entry, List.find?]

/-- A fresh-enough lookup survives the lazy TTL sweep. -/
theorem lookup_cleanup (t : ℚ) (key : String) :
    ∀ (cache : List (String × CacheEntry)) (e : CacheEntry),
      lookup_cache cache key = some e → t - e.timestamp ≤ 43200 →
      lookup_cache (cleanup_expired_cache cache t) key = some e := by
  intro cache
  induction cache with
  | nil => intro e he _; simp [lookup_cache] at he
  | cons p rest ih =>
    intro e he hts
    by_cases hk : (p.1 == key) = true
    · have hpe : p.2 = e := by
        simp only [lookup_cache, List.find?, hk, Option.map_some',
          Option.some.injEq] at he
        exact he
      have hkeep : (!decide (t - p.2.timestamp > 43200)) = true := by
        simp only [Bool.not_eq_true', decide_eq_false_iff_not, not_lt, hpe]
        exact hts
      simp only [cleanup_expired_cache, List.filter_cons, hkeep, if_true,
        lookup_cache, List.find?, hk, Option.map_some', Option.some.injEq]
      exact hpe
    · have hk' : (p.1 == key) = false := by simpa using hk
      have he' : lookup_cache rest key = some e := by
        simpa only [lookup_cache, List.find?, hk'] using he
      have hrec := ih e he' hts
      simp only [lookup_cache, cleanup_expired_cache] at hrec ⊢
      rw [List.filter_cons]
      by_cases hkeep : (!decide (t - p.2.timestamp > 43200)) = true
      · rw [if_pos hkeep]
        simp only [List.find?, hk']
        exact hrec
      · rw [if_neg hkeep]
        exact hrec

/-- Case lemma: a fresh cache hit returns the stored handle and performs
no upload. -/
theorem upload_file_cached_hit (s : UploadState) (fileHash fileName : String)
    (sizeMb t : ℚ) (e : CacheEntry)
    (hlc : lookup_cache (cleanup_expired_cache s.cache t) fileHash = some e)
    (hfresh : t - e.timestamp < 43200) :
    upload_file_cached fileHash fileName sizeMb t false s =
      (e.url,
        { cache := cleanup_expired_cache s.cache t, uploads := s.uploads }) := by
  unfold upload_file_cached
  simp only [Bool.false_eq_true, if_false, hlc, hfresh, if_true]

/-- Case lemma: an expired hit is deleted and replaced by a fresh upload
timestamped `now`. -/
theorem upload_file_cached_expired (s : UploadState)
    (fileHash fileName : String) (sizeMb t : ℚ) (e : CacheEntry)
    (hlc : lookup_cache (cleanup_expired_cache s.cache t) fileHash = some e)
    (hstale : ¬ (t - e.timestamp < 43200)) :
    upload_file_cached fileHash fileName sizeMb t false s =
      (s.uploads,
        { cache := insert_entry (erase_key (cleanup_expired_cache s.cache t)
            fileHash) fileHash
            { url := s.uploads, timestamp := t, filename := fileName,
              size_mb := sizeMb },
          uploads := s.uploads + 1 }) := by
  unfold upload_file_cached
  simp only [Bool.false_eq_true, if_false, hlc, hstale, if_true]

/-- Case lemma: a miss uploads and stores a fresh entry timestamped
`now`. -/
theorem upload_file_cached_miss (s : UploadState)
    (fileHash fileName : String) (sizeMb t : ℚ)
    (hlc : lookup_cache (cleanup_expired_cache s.cache t) fileHash = none) :
    upload_file_cached fileHash fileName sizeMb t false s =
      (s.uploads,
        { cache := insert_entry (cleanup_expired_cache s.cache t) fileHash
            { url := s.uploads, timestamp := t, filename := fileName,
              size_mb := sizeMb },
          uploads := s.uploads + 1 }) := by
  unfold upload_file_cached
  simp only [Bool.false_eq_true, if_false, hlc]

/-- After a non-forced call, the entry stored under the file hash carries
the returned handle. -/
theorem upload_file_cached_lookup (s : UploadState) (fileHash fileName : String)
    (sizeMb t : ℚ) (e : CacheEntry)
    (he : lookup_cache (upload_file_cached fileHash fileName sizeMb t false
      s).2.cache fileHash = some e) :
    e.url = (upload_file_cached fileHash fileName sizeMb t false s).1 := by
  rcases hm : lookup_cache (cleanup_expired_cache s.cache t) fileHash
    with _ | entry
  · rw [upload_file_cached_miss s fileHash fileName sizeMb t hm] at he ⊢
    rw [lookup_insert_entry] at he
    cases he
    rfl
  · by_cases hfresh : t - entry.timestamp < 43200
    · rw [upload_file_cached_hit s fileHash fileName sizeMb t entry hm hfresh]
        at he ⊢
      dsimp only at he ⊢
      rw [hm] at he
      cases he
      rfl
    · rw [upload_file_cached_expired s fileHash fileName sizeMb t entry hm
        hfresh] at he ⊢
      rw [lookup_insert_entry] at he
      cases he
      rfl

/-- Each call performs at most one upload. -/
theorem upload_file_cached_uploads_le (s : UploadState)
    (fileHash fileName : String) (sizeMb t : ℚ) (forceFresh : Bool) :
    (upload_file_cached fileHash fileName sizeMb t forceFresh s).2.uploads ≤
      s.uploads + 1 := by
  unfold upload_file_cached
  dsimp only
  rcases hm : (if forceFresh then none
      else lookup_cache (cleanup_expired_cache s.cache t) fileHash)
    with _ | entry
  · simp
  · by_cases hfresh : t - entry.timestamp < 43200
    · simp [hfresh]
    · simp [hfresh]

/-- C5: two non-forced calls on the same unchanged file content (same MD5
hash), the second while the entry stored by the first is still within the
12-hour TTL, return the same handle; the second call performs no network
upload (it is served from the hash-keyed cache), and the first performs
at most one. -/
theorem upload_cache_idempotent (s0 : UploadState)
    (fileHash fileName : String) (sizeMb t1 t2 : ℚ) (e : CacheEntry)
    (he : lookup_cache (upload_file_cached fileHash fileName sizeMb t1 false
      s0).2.cache fileHash = some e)
    (httl : t2 - e.timestamp < 43200) :
    (upload_file_cached fileHash fileName sizeMb t2 false
        (upload_file_cached fileHash fileName sizeMb t1 false s0).2).1 =
      (upload_file_cached fileHash fileName sizeMb t1 false s0).1 ∧
    (upload_file_cached fileHash fileName sizeMb t2 false
        (upload_file_cached fileHash fileName sizeMb t1 false s0).2).2.uploads =
      (upload_file_cached fileHash fileName sizeMb t1 false s0).2.uploads ∧
    (upload_file_cached fileHash fileName sizeMb t1 false s0).2.uploads ≤
      s0.uploads + 1 := by
  have hurl : e.url = (upload_file_cached fileHash fileName sizeMb t1 false
      s0).1 := upload_file_cached_lookup s0 fileHash fileName sizeMb t1 e he
  have hlc2 : lookup_cache
      (cleanup_expired_cache
        (upload_file_cached fileHash fileName sizeMb t1 false s0).2.cache t2)
      fileHash = some e :=
    lookup_cleanup t2 fileHash _ e he (le_of_lt httl)
  have hcall2 := upload_file_cached_hit
    (upload_file_cached fileHash fileName sizeMb t1 false s0).2
    fileHash fileName sizeMb t2 e hlc2 httl
  rw [hcall2, hurl]
  exact ⟨rfl, rfl,
    upload_file_cached_uploads_le s0 fileHash fileName sizeMb t1 false⟩

/-- Concrete state for the C5 witness: empty cache, no uploads yet. -/
def c5_state : UploadState := { cache := [], uploads := 0 }

/-- MD5 hexdigest used as the concrete cache key in witnesses. -/
def c5_hash : String := "d41d8cd98f00b204e9800998ecf8427e"

/-- The entry stored by the first call of the C5 witness. -/
def c5_entry : CacheEntry :=
  { url := 0, timestamp := 0, filename := "doc.pdf", size_mb := 1 }

/-- Witness for `upload_cache_idempotent`: first call at time 0 on the
empty cache, second call at time 100. -/
theorem upload_cache_idempotent_witness :
    lookup_cache (upload_file_cached c5_hash "doc.pdf" 1 0 false
      c5_state).2.cache c5_hash = some c5_entry ∧
    (100 : ℚ) - c5_entry.timestamp < 43200 ∧
    ((upload_file_cached c5_hash "doc.pdf" 1 100 false
        (upload_file_cached c5_hash "doc.pdf" 1 0 false c5_state).2).1 =
      (upload_file_cached c5_hash "doc.pdf" 1 0 false c5_state).1 ∧
    (upload_file_cached c5_hash "doc.pdf" 1 100 false
        (upload_file_cached c5_hash "doc.pdf" 1 0 false c5_state).2).2.uploads =
      (upload_file_cached c5_hash "doc.pdf" 1 0 false c5_state).2.uploads ∧
    (upload_file_cached c5_hash "doc.pdf" 1 0 false c5_state).2.uploads ≤
      c5_state.uploads + 1) :=
  ⟨by simp [upload_file_cached, c5_state, c5_hash, c5_entry,
      cleanup_expired_cache, lookup_cache, insert_entry, erase_key,
      List.find?],
    by norm_num [c5_entry],
    upload_cache_idempotent c5_state c5_hash "doc.pdf" 1 0 100 c5_entry
      (by simp [upload_file_cached, c5_state, c5_hash, c5_entry,
        cleanup_expired_cache, lookup_cache, insert_entry, erase_key,
        List.find?])
      (by norm_num [c5_entry])⟩

/-- Reachability invariant of the upload model: every cached handle was
produced by an earlier upload (its serial number is below the upload
counter), and — as in a Python dict — cache keys are unique. -/
def CacheWF (s : UploadState) : Prop :=
  (∀ p ∈ s.cache, p.2.url < s.uploads) ∧ (s.cache.map Prod.fst).Nodup

/-- With unique keys, the looked-up entry is the only entry under its
key. -/
theorem lookup_unique (key : String) :
    ∀ (cache : List (String × CacheEntry)) (e : CacheEntry),
      (cache.map Prod.fst).Nodup → lookup_cache cache key = some e →
      ∀ p ∈ cache, p.1 = key → p.2 = e := by
  intro cache
  induction cache with
  | nil => intro e _ _ p hp; simp at hp
  | cons q rest ih =>
    intro e hnd he p hp hpk
    rw [List.map_cons, List.nodup_cons] at hnd
    by_cases hk : (q.1 == key) = true
    · have hqe : q.2 = e := by
        simp only [lookup_cache, List.find?, hk, Option.map_some',
          Option.some.injEq] at he
        exact he
      rcases List.mem_cons.mp hp with rfl | hp'
      · exact hqe
      · exfalso
        apply hnd.1
        have : q.1 = p.1 := by rw [hpk, eq_of_beq hk]
        rw [this]
        exact List.mem_map_of_mem Prod.fst hp'
    · have hk' : (q.1 == key) = false := by simpa using hk
      have he' : lookup_cache rest key = some e := by
        simpa only [lookup_cache, List.find?, hk'] using he
      rcases List.mem_cons.mp hp with rfl | hp'
      · exfalso
        exact hk (by simp [hpk])
      · exact ih e hnd.2 he' p hp' hpk

/-- The lazy sweep removes an expired entry entirely: the subsequent
lookup under its key misses. -/
theorem lookup_cleanup_expired (t : ℚ) (key : String)
    (cache : List (String × CacheEntry)) (e : CacheEntry)
    (hnd : (cache.map Prod.fst).Nodup)
    (he : lookup_cache cache key = some e)
    (hexp : 43200 < t - e.timestamp) :
    lookup_cache (cleanup_expired_cache cache t) key = none := by
  unfold lookup_cache cleanup_expired_cache
  rw [Option.map_eq_none']
  apply List.find?_eq_none.mpr
  intro x hx hbeq
  obtain ⟨hxmem, hxkeep⟩ := List.mem_filter.mp hx
  have hxe : x.2 = e :=
    lookup_unique key cache e hnd he x hxmem (eq_of_beq hbeq)
  rw [hxe] at hxkeep
  simp only [Bool.not_eq_true', decide_eq_false_iff_not, not_lt] at hxkeep
  exact absurd hexp (not_lt.mpr hxkeep)

/-- C6: querying strictly after the 12-hour TTL does not return the old
handle: the query-triggered sweep (which removes exactly the entries
older than the TTL, and nothing else) purges the entry, a genuine upload
is performed, the returned handle is fresh (distinct from the expired
entry's handle), and the only entry left under the key is the new one
timestamped with the query time. -/
theorem ttl_expiry_lazy_purge (s : UploadState) (fileHash fileName : String)
    (sizeMb t : ℚ) (e : CacheEntry)
    (hwf : CacheWF s)
    (he : lookup_cache s.cache fileHash = some e)
    (hexp : 43200 < t - e.timestamp) :
    (upload_file_cached fileHash fileName sizeMb t false s).2.uploads =
      s.uploads + 1 ∧
    (upload_file_cached fileHash fileName sizeMb t false s).1 = s.uploads ∧
    (upload_file_cached fileHash fileName sizeMb t false s).1 ≠ e.url ∧
    (∀ e', lookup_cache (upload_file_cached fileHash fileName sizeMb t false
        s).2.cache fileHash = some e' → e'.timestamp = t) ∧
    (∀ p, p ∈ cleanup_expired_cache s.cache t ↔
      p ∈ s.cache ∧ t - p.2.timestamp ≤ 43200) := by
  have hnone := lookup_cleanup_expired t fileHash s.cache e hwf.2 he hexp
  have hcall := upload_file_cached_miss s fileHash fileName sizeMb t hnone
  have hurl : e.url < s.uploads := by
    obtain ⟨q, hq, hq2⟩ := Option.map_eq_some'.mp he
    rw [← hq2]
    exact hwf.1 q (List.mem_of_find?_eq_some hq)
  refine ⟨?_, ?_, ?_, ?_, ?_⟩
  · rw [hcall]
  · rw [hcall]
  · rw [hcall]
    exact hurl.ne'
  · intro e' he'
    rw [hcall] at he'
    dsimp only at he'
    rw [lookup_insert_entry] at he'
    cases he'
    rfl
  · intro p
    simp only [cleanup_expired_cache, List.mem_filter, Bool.not_eq_true',
      decide_eq_false_iff_not, not_lt]

/-- Concrete state for the C6 witness: one entry inserted at time 0, one
upload performed so far. -/
def c6_state : UploadState :=
  { cache := [("d41d8cd98f00b204e9800998ecf8427e",
      { url := 0, timestamp := 0, filename := "a.pdf", size_mb := 1 })],
    uploads := 1 }

/-- The entry of `c6_state`. -/
def c6_entry : CacheEntry :=
  { url := 0, timestamp := 0, filename := "a.pdf", size_mb := 1 }

/-- Witness for `ttl_expiry_lazy_purge`: the entry inserted at time 0 is
queried at time 50000 > 43200. -/
theorem ttl_expiry_lazy_purge_witness :
    CacheWF c6_state ∧
    lookup_cache c6_state.cache "d41d8cd98f00b204e9800998ecf8427e" =
      some c6_entry ∧
    (43200 : ℚ) < 50000 - c6_entry.timestamp ∧
    ((upload_file_cached "d41d8cd98f00b204e9800998ecf8427e" "a.pdf" 1 50000
        false c6_state).2.uploads = c6_state.uploads + 1 ∧
    (upload_file_cached "d41d8cd98f00b204e9800998ecf8427e" "a.pdf" 1 50000
        false c6_state).1 = c6_state.uploads ∧
    (upload_file_cached "d41d8cd98f00b204e9800998ecf8427e" "a.pdf" 1 50000
        false c6_state).1 ≠ c6_entry.url ∧
    (∀ e', lookup_cache (upload_file_cached "d41d8cd98f00b204e9800998ecf8427e"
        "a.pdf" 1 50000 false c6_state).2.cache
        "d41d8cd98f00b204e9800998ecf8427e" = some e' → e'.timestamp = 50000) ∧
    (∀ p, p ∈ cleanup_expired_cache c6_state.cache 50000 ↔
      p ∈ c6_state.cache ∧ (50000 : ℚ) - p.2.timestamp ≤ 43200)) :=
  ⟨⟨by intro p hp; simp only [c6_state, List.mem_singleton] at hp; subst hp;
        norm_num [c6_state],
    by simp [c6_state]⟩,
    by simp [lookup_cache, c6_state, c6_entry, List.find?],
    by norm_num [c6_entry],
    ttl_expiry_lazy_purge c6_state "d41d8cd98f00b204e9800998ecf8427e" "a.pdf"
      1 50000 c6_entry
      ⟨by intro p hp; simp only [c6_state, List.mem_singleton] at hp;
          subst hp; norm_num [c6_state],
        by simp [c6_state]⟩
      (by simp [lookup_cache, c6_state, c6_entry, List.find?])
      (by norm_num [c6_entry])⟩

/-- The retry-cleanup key built at `performance_optimizer.py` lines
233-234: `f"{name}_{mtime}_{size}"` (the numeric `mtime`/`size` are
abstracted as their string representations). -/
def legacy_retry_key (name mtimeRepr sizeRepr : String) : String :=
  name ++ "_" ++ mtimeRepr ++ "_" ++ sizeRepr

/-- The discard step at `performance_optimizer.py` lines 235-237:
`if file_key in self.upload_cache: del self.upload_cache[file_key]`. -/
def discard_cache_entry_for_retry (cache : List (String × CacheEntry))
    (fileKey : String) : List (String × CacheEntry) :=
  if cache.any (fun p => p.1 == fileKey) then erase_key cache fileKey
  else cache

/-- Recognises an MD5 hexdigest, the shape of every key that
`_upload_file_cached` stores: 32 characters from `0-9a-f`
(`hashlib.md5(...).hexdigest()` is lowercase). -/
def is_md5_hexdigest (str : String) : Bool :=
  str.data.length == 32 &&
    str.data.all (fun c => c.isDigit || ('a' ≤ c && c ≤ 'f'))

/-- C8 divergence: when every cache key is an MD5 hexdigest (as
`_upload_file_cached` guarantees), the retry discard step removes
nothing — the legacy `name_mtime_size` key contains an underscore and so
can never equal an MD5-hex key, leaving the stale content-hash entry in
place. -/
theorem retry_discard_is_noop (cache : List (String × CacheEntry))
    (name mtimeRepr sizeRepr : String)
    (hkeys : ∀ p ∈ cache, is_md5_hexdigest p.1 = true) :
    discard_cache_entry_for_retry cache
      (legacy_retry_key name mtimeRepr sizeRepr) = cache := by
  unfold discard_cache_entry_for_retry
  have hnot : ¬ (cache.any
      (fun p => p.1 == legacy_retry_key name mtimeRepr sizeRepr) = true) := by
    intro hany
    obtain ⟨p, hp, hbeq⟩ := List.any_eq_true.mp hany
    have hkey : p.1 = legacy_retry_key name mtimeRepr sizeRepr :=
      eq_of_beq hbeq
    have hmd5 := hkeys p hp
    have hmem : '_' ∈ p.1.data := by
      rw [hkey]
      unfold legacy_retry_key
      have h1 : '_' ∈ ("_" : String).data := by decide
      simp [String.data_append, List.mem_append, h1]
    unfold is_md5_hexdigest at hmd5
    rw [Bool.and_eq_true] at hmd5
    have hhex := List.all_eq_true.mp hmd5.2 '_' hmem
    exact absurd hhex (by decide)
  rw [if_neg hnot]

/-- Concrete cache for the C8 witness: one genuine MD5-keyed entry. -/
def c8_cache : List (String × CacheEntry) :=
  [("d41d8cd98f00b204e9800998ecf8427e",
    { url := 0, timestamp := 0, filename := "doc.pdf", size_mb := 1 })]

/-- Witness for `retry_discard_is_noop`: discarding with the legacy key
of `doc.pdf` (mtime 1700000000.0, size 12345) leaves the MD5-keyed cache
untouched. -/
theorem retry_discard_is_noop_witness :
    (∀ p ∈ c8_cache, is_md5_hexdigest p.1 = true) ∧
    discard_cache_entry_for_retry c8_cache
      (legacy_retry_key "doc.pdf" "1700000000.0" "12345") = c8_cache :=
  ⟨by decide,
    retry_discard_is_noop c8_cache "doc.pdf" "1700000000.0" "12345"
      (by decide)⟩

/-- One job of a group, as seen by the collection loop
(`performance_optimizer.py`, lines 176-212): the outcome of its first
execution, and the outcome of the inline retry (consulted only when the
first outcome is a rate-limit-shaped error).  Success payloads are job
identifiers. -/
structure JobSpec where
  first : Except String ℕ
  retry : Except String ℕ

/-- The collection-loop state of `_process_group_concurrent`: results,
shared adaptive delay, completion counter, and the observable traces
(progress-callback invocations and retry sleeps). -/
structure GroupState where
  adaptive_delay : ℚ
  success : List ℕ
  failed : List String
  completed : ℕ
  progress_calls : List (ℕ × ℕ)
  sleeps : List ℚ

/-- One iteration of the `as_completed` collection loop
(`performance_optimizer.py`, lines 178-212).  On success: record it,
decay the adaptive delay (`max(0.5, delay * 0.9)`), bump
`completed_count` and invoke the progress callback.  On a
rate-limit-shaped error: back off (`delay *= 1.5`), sleep `2 * delay`,
retry once inline; a retry success executes `continue`, skipping the
`completed_count += 1` and the callback; a retry failure is recorded and
counted.  Any other error is recorded as a failure and counted. -/
def process_completion (total : ℕ) (st : GroupState) (job : JobSpec) :
    GroupState :=
  match job.first with
  | Except.ok r =>
      { st with
        success := st.success ++ [r]
        adaptive_delay := max 0.5 (st.adaptive_delay * 0.9)
        completed := st.completed + 1
        progress_calls := st.progress_calls ++ [(st.completed + 1, total)] }
  | Except.error e =>
      if is_rate_limit_error e then
        let d := st.adaptive_delay * 1.5
        match job.retry with
        | Except.ok r =>
            { st with
              adaptive_delay := d
              success := st.success ++ [r]
              sleeps := st.sleeps ++ [d * 2] }
        | Except.error e2 =>
            { st with
              adaptive_delay := d
              failed := st.failed ++ [e2]
              sleeps := st.sleeps ++ [d * 2]
              completed := st.completed + 1
              progress_calls := st.progress_calls ++ [(st.completed + 1, total)] }
      else
        { st with
          failed := st.failed ++ [e]
          completed := st.completed + 1
          progress_calls := st.progress_calls ++ [(st.completed + 1, total)] }

/-- The collection loop starts each group with `completed_count = 0` and
empty result lists. -/
def initial_group_state (d0 : ℚ) : GroupState :=
  { adaptive_delay := d0, success := [], failed := [], completed := 0,
    progress_calls := [], sleeps := [] }

/-- The collection phase of `_process_group_concurrent` over the
completion order of a group: a fold of `process_completion`, with the
callback total fixed to `len(files_group)`. -/
def process_group_collect (jobs : List JobSpec) (d0 : ℚ) : GroupState :=
  jobs.foldl (process_completion jobs.length) (initial_group_state d0)

/-- A job that hits the `continue` path: first outcome rate-limit-shaped,
inline retry succeeds. -/
def is_retry_success_skip (j : JobSpec) : Bool :=
  match j.first with
  | Except.ok _ => false
  | Except.error e =>
    match j.retry with
    | Except.ok _ => is_rate_limit_error e
    | Except.error _ => false

/-- The callback trace `(c+1, total), (c+2, total), …` of `m` counted
completions starting from count `c`. -/
def trace_from (c total : ℕ) : ℕ → List (ℕ × ℕ)
  | 0 => []
  | m + 1 => (c + 1, total) :: trace_from (c + 1) total m

/-- C7 (amended), specification side: the expected callback trace is one
invocation per job that completes as a direct success or as a failure —
`(1, total), (2, total), …` — while jobs that succeed through the inline
rate-limit retry are skipped by the `continue` statement. -/
def expected_progress_trace (jobs : List JobSpec) : List (ℕ × ℕ) :=
  (List.range (jobs.filter (fun j => !(is_retry_success_skip j))).length).map
    (fun i => (i + 1, jobs.length))

/-- `trace_from` in closed form. -/
theorem trace_from_eq (total : ℕ) :
    ∀ (m c : ℕ), trace_from c total m =
      (List.range m).map (fun i => (c + i + 1, total)) := by
  intro m
  induction m with
  | zero => intro c; simp [trace_from]
  | succ m ih =>
    intro c
    rw [trace_from, ih (c + 1), List.range_succ_eq_map, List.map_cons,
      List.map_map]
    have hfun : (fun i => (c + 1 + i + 1, total)) =
        ((fun i => (c + i + 1, total)) ∘ Nat.succ) := by
      funext i
      simp only [Function.comp]
      congr 1
      omega
    rw [hfun]

/-- Effect of one loop iteration on the completion counter and the
callback trace, by whether the job takes the `continue` path. -/
theorem process_completion_progress (total : ℕ) (st : GroupState)
    (j : JobSpec) :
    (is_retry_success_skip j = true →
      (process_completion total st j).completed = st.completed ∧
      (process_completion total st j).progress_calls = st.progress_calls) ∧
    (is_retry_success_skip j = false →
      (process_completion total st j).completed = st.completed + 1 ∧
      (process_completion total st j).progress_calls =
        st.progress_calls ++ [(st.completed + 1, total)]) := by
  unfold process_completion is_retry_success_skip
  cases hj : j.first with
  | ok v => simp
  | error e =>
    cases hr : j.retry with
    | ok v =>
      by_cases hrl : is_rate_limit_error e = true
      · simp [hrl]
      · simp [hrl]
    | error e2 =>
      by_cases hrl : is_rate_limit_error e = true
      · simp [hrl]
      · simp [hrl]

/-- The fold over a group appends one callback per counted completion. -/
theorem process_fold_progress (total : ℕ) :
    ∀ (jobs : List JobSpec) (st : GroupState),
      (jobs.foldl (process_completion total) st).completed =
        st.completed +
          (jobs.filter (fun j => !(is_retry_success_skip j))).length ∧
      (jobs.foldl (process_completion total) st).progress_calls =
        st.progress_calls ++
          trace_from st.completed total
            (jobs.filter (fun j => !(is_retry_success_skip j))).length := by
  intro jobs
  induction jobs with
  | nil => intro st; simp [trace_from]
  | cons j rest ih =>
    intro st
    rw [List.foldl_cons, List.filter_cons]
    obtain ⟨hc, hp⟩ := ih (process_completion total st j)
    by_cases hskip : is_retry_success_skip j = true
    · have hnb : (!(is_retry_success_skip j)) = false := by simp [hskip]
      simp only [hnb, Bool.false_eq_true, if_false]
      obtain ⟨h1, h2⟩ := (process_completion_progress total st j).1 hskip
      exact ⟨by rw [hc, h1], by rw [hp, h2, h1]⟩
    · have hsf : is_retry_success_skip j = false := by
        simpa using hskip
      have hnb : (!(is_retry_success_skip j)) = true := by simp [hsf]
      simp only [hnb, if_true]
      obtain ⟨h1, h2⟩ := (process_completion_progress total st j).2 hsf
      constructor
      · rw [hc, h1, List.length_cons]
        omega
      · rw [hp, h2, h1, List.length_cons, trace_from]
        simp [List.append_assoc]

/-- C7 (amended): over any group and any completion order, the progress
callback is invoked exactly once after each job that completes as a
direct success or as a failure, with arguments (number of such counted
completions so far, group size); jobs that succeed through the inline
rate-limit retry trigger no callback and are not counted (refuted
original behaviour shown in `C7_counterexample`). -/
theorem progress_callback_per_completion (jobs : List JobSpec) (d0 : ℚ) :
    (process_group_collect jobs d0).progress_calls =
      expected_progress_trace jobs := by
  obtain ⟨_, hp⟩ := process_fold_progress jobs.length jobs
    (initial_group_state d0)
  unfold process_group_collect
  rw [hp]
  have h0 : (initial_group_state d0).progress_calls = [] := rfl
  have hc0 : (initial_group_state d0).completed = 0 := rfl
  rw [h0, hc0, trace_from_eq]
  unfold expected_progress_trace
  simp

/-- A job whose first run hits a rate limit and whose inline retry
succeeds. -/
def c7_job : JobSpec :=
  { first := Except.error "429 too many requests", retry := Except.ok 1 }

/-- C7 counterexample: a group of one job that completes successfully via
the inline rate-limit retry produces no progress-callback invocation at
all — the `continue` statement skips both `completed_count += 1` and the
callback — instead of the claimed single `(1, 1)` invocation. -/
theorem C7_counterexample :
    (process_group_collect [c7_job] (3/2)).success = [1] ∧
    (process_group_collect [c7_job] (3/2)).progress_calls = [] := by
  have hrl : is_rate_limit_error "429 too many requests" = true := by decide
  simp [process_group_collect, initial_group_state, process_completion,
    c7_job, hrl]

end PerformanceOptimizer
